import Mathlib

set_option maxRecDepth 8000

/-!
Verification development for the document-compliance pipeline
(`src/main.py` of doc_parser_project).

Python strings are modelled as `List Char`.  External effects (the disk
write, the PDF/docx libraries run on the stored file, the LLM transport)
are passed in as explicit parameters, so the orchestration logic itself
is a pure Lean function translated line by line from the source.
-/

-- ## Characters and whitespace

-- The two brace characters, kept as named constants.
def lbraceChar : Char := Char.ofNat 123

def rbraceChar : Char := Char.ofNat 125

-- Whitespace skipped by Python's JSON scanner (json.decoder: ' \t\n\r').
def isJsonWs (c : Char) : Bool :=
  c = ' ' || c = '\t' || c = '\n' || c = '\r'

def skipWs (l : List Char) : List Char :=
  l.dropWhile isJsonWs

-- ASCII whitespace removed by Python's str.strip (space, \t, \n, \r, \v, \f).
def isPySpace (c : Char) : Bool :=
  c = ' ' || c = '\t' || c = '\n' || c = '\r' || c = Char.ofNat 11 || c = Char.ofNat 12

-- Model of Python str.strip().
def pyStrip (l : List Char) : List Char :=
  ((l.dropWhile isPySpace).reverse.dropWhile isPySpace).reverse

-- ## JSON values

/-- JSON values as produced by Python's `json.loads`.  `null` doubles as
Python `None`.  Numbers keep their source lexeme (the claims never depend
on numeric semantics).  Objects are assoc lists built with last-wins
insertion, mirroring how `dict(pairs)` is built. -/
inductive Json where
  | null : Json
  | bool : Bool → Json
  | num : List Char → Json
  | str : List Char → Json
  | arr : List Json → Json
  | obj : List (List Char × Json) → Json

-- Python dict insertion: overwrite an existing key in place, else append.
def dictInsert (kvs : List (List Char × Json)) (k : List Char) (v : Json) :
    List (List Char × Json) :=
  match kvs with
  | [] => [(k, v)]
  | (k0, v0) :: rest => if k0 = k then (k, v) :: rest else (k0, v0) :: dictInsert rest k v

-- ## JSON string scanning (json.decoder scanstring, strict mode)

def hexVal (c : Char) : Option Nat :=
  if 48 ≤ c.toNat ∧ c.toNat ≤ 57 then some (c.toNat - 48)
  else if 97 ≤ c.toNat ∧ c.toNat ≤ 102 then some (c.toNat - 87)
  else if 65 ≤ c.toNat ∧ c.toNat ≤ 70 then some (c.toNat - 55)
  else none

def escChar (e : Char) : Option Char :=
  if e = '\"' then some '\"'
  else if e = '\\' then some '\\'
  else if e = '/' then some '/'
  else if e = 'b' then some (Char.ofNat 8)
  else if e = 'f' then some (Char.ofNat 12)
  else if e = 'n' then some '\n'
  else if e = 'r' then some '\r'
  else if e = 't' then some '\t'
  else none

/-- Scan a JSON string body after the opening quote; returns the decoded
content and the remainder after the closing quote.  `\uXXXX` becomes
`Char.ofNat` of the code unit (surrogate pairing is not modelled; no
claim depends on it); unescaped control characters are rejected, as in
Python's default strict mode. -/
def parseStringBody : List Char → Option (List Char × List Char)
  | [] => none
  | c :: rest =>
    if c = '\"' then some ([], rest)
    else if c = '\\' then
      match rest with
      | [] => none
      | e :: rest2 =>
        if e = 'u' then
          match rest2 with
          | h1 :: h2 :: h3 :: h4 :: rest3 =>
            match hexVal h1, hexVal h2, hexVal h3, hexVal h4 with
            | some x1, some x2, some x3, some x4 =>
              match parseStringBody rest3 with
              | some (tl, r) =>
                some (Char.ofNat (((x1 * 16 + x2) * 16 + x3) * 16 + x4) :: tl, r)
              | none => none
            | _, _, _, _ => none
          | _ => none
        else
          match escChar e with
          | some ec =>
            match parseStringBody rest2 with
            | some (tl, r) => some (ec :: tl, r)
            | none => none
          | none => none
    else if c.toNat < 32 then none
    else
      match parseStringBody rest with
      | some (tl, r) => some (c :: tl, r)
      | none => none

-- ## JSON number lexing (json.scanner NUMBER_RE)

-- The integer part: 0 | [1-9][0-9]*
def lexInt : List Char → Option (List Char × List Char)
  | [] => none
  | c :: rest =>
    if c = '0' then some ([c], rest)
    else if c.isDigit then
      match rest.span Char.isDigit with
      | (ds, r) => some (c :: ds, r)
    else none

-- The optional fraction part: (\.[0-9]+)?
def lexFrac (l : List Char) : List Char × List Char :=
  match l with
  | c :: r =>
    if c = '.' then
      match r.span Char.isDigit with
      | (ds, r2) => if ds.isEmpty then ([], l) else (c :: ds, r2)
    else ([], l)
  | [] => ([], l)

-- The optional exponent part: ([eE][-+]?[0-9]+)?
def lexExp (l : List Char) : List Char × List Char :=
  match l with
  | e :: r =>
    if e = 'e' || e = 'E' then
      match r with
      | s :: r2 =>
        if s = '+' || s = '-' then
          match r2.span Char.isDigit with
          | (ds, r3) => if ds.isEmpty then ([], l) else (e :: s :: ds, r3)
        else
          match r.span Char.isDigit with
          | (ds, r3) => if ds.isEmpty then ([], l) else (e :: ds, r3)
      | [] => ([], l)
    else ([], l)
  | [] => ([], l)

def lexUnsigned (l : List Char) : Option (List Char × List Char) :=
  match lexInt l with
  | some (ip, r1) =>
    match lexFrac r1 with
    | (fp, r2) =>
      match lexExp r2 with
      | (ep, r3) => some (ip ++ fp ++ ep, r3)
  | none => none

def lexNumber (l : List Char) : Option (List Char × List Char) :=
  match l with
  | c :: rest =>
    if c = '-' then
      match lexUnsigned rest with
      | some (lx, r) => some (c :: lx, r)
      | none => none
    else lexUnsigned l
  | [] => none

-- ## The JSON value scanner (json.scanner py_make_scanner)

mutual

/-- Scan one JSON value at the head of `l` (callers skip whitespace first).
Mirrors Python's `_scan_once`: string, object, array, the three literals,
a number, then the NaN/Infinity constants. -/
def parseValue : Nat → List Char → Option (Json × List Char)
  | 0, _ => none
  | Nat.succ fuel, l =>
    match l with
    | [] => none
    | c :: rest =>
      if c = '\"' then
        match parseStringBody rest with
        | some (s, r) => some (Json.str s, r)
        | none => none
      else if c = lbraceChar then
        match skipWs rest with
        | d :: r2 =>
          if d = rbraceChar then some (Json.obj [], r2)
          else parseMembers fuel (d :: r2) []
        | [] => none
      else if c = '[' then
        match skipWs rest with
        | d :: r2 =>
          if d = ']' then some (Json.arr [], r2)
          else parseElements fuel (d :: r2) []
        | [] => none
      else if "null".data.isPrefixOf l then some (Json.null, l.drop 4)
      else if "true".data.isPrefixOf l then some (Json.bool true, l.drop 4)
      else if "false".data.isPrefixOf l then some (Json.bool false, l.drop 5)
      else
        match lexNumber l with
        | some (lx, r) => some (Json.num lx, r)
        | none =>
          if "NaN".data.isPrefixOf l then some (Json.num "NaN".data, l.drop 3)
          else if "Infinity".data.isPrefixOf l then some (Json.num "Infinity".data, l.drop 8)
          else if "-Infinity".data.isPrefixOf l then some (Json.num "-Infinity".data, l.drop 9)
          else none

/-- Scan object members; `l` must start at a key's opening quote. -/
def parseMembers : Nat → List Char → List (List Char × Json) →
    Option (Json × List Char)
  | 0, _, _ => none
  | Nat.succ fuel, l, acc =>
    match l with
    | c :: rest =>
      if c = '\"' then
        match parseStringBody rest with
        | some (k, r1) =>
          match skipWs r1 with
          | d :: r2 =>
            if d = ':' then
              match parseValue fuel (skipWs r2) with
              | some (v, r3) =>
                match skipWs r3 with
                | e :: r4 =>
                  if e = ',' then
                    parseMembers fuel (skipWs r4) (dictInsert acc k v)
                  else if e = rbraceChar then
                    some (Json.obj (dictInsert acc k v), r4)
                  else none
                | [] => none
              | none => none
            else none
          | [] => none
        | none => none
      else none
    | [] => none

/-- Scan array elements; `l` must start at the first element. -/
def parseElements : Nat → List Char → List Json → Option (Json × List Char)
  | 0, _, _ => none
  | Nat.succ fuel, l, acc =>
    match parseValue fuel l with
    | some (v, r1) =>
      match skipWs r1 with
      | d :: r2 =>
        if d = ',' then parseElements fuel (skipWs r2) (acc ++ [v])
        else if d = ']' then some (Json.arr (acc ++ [v]), r2)
        else none
      | [] => none
    | none => none

end

/-- Model of Python's `json.loads`: skip leading whitespace, scan one value,
then require only whitespace to remain ("Extra data" otherwise). -/
def json_loads (s : List Char) : Option Json :=
  match parseValue (s.length + 1) (skipWs s) with
  | some (v, rest) => if skipWs rest = [] then some v else none
  | none => none

-- ## Result decoder (src/main.py, extract_json_from_text, lines 53-67)

def rfindIdx (p : Char → Bool) (l : List Char) : Option Nat :=
  match l.reverse.findIdx? p with
  | some k => some (l.length - 1 - k)
  | none => none

/-- The substring fallback of `extract_json_from_text`: on the stripped
input, locate the first `x7b` and the last `x7d`; if both exist with the
former strictly first, parse the inclusive slice between them; `Json.null`
stands for the Python `None` returned when this fails too. -/
def substring_fallback (t : List Char) : Json :=
  match List.findIdx? (fun c => c = lbraceChar) t, rfindIdx (fun c => c = rbraceChar) t with
  | some start, some stop =>
    if start < stop then
      match json_loads ((t.drop start).take (stop + 1 - start)) with
      | some v => v
      | none => Json.null
    else Json.null
  | some _, none => Json.null
  | none, _ => Json.null

/-- `extract_json_from_text` with the fallback abstracted out: strip, try a
whole-string `json.loads`, and only on exception run `fb` on the stripped
text.  Taking `fb` as a parameter lets theorems express that a successful
whole-string parse never consults the fallback. -/
def extract_core (fb : List Char → Json) (s : List Char) : Json :=
  let t := pyStrip s
  match json_loads t with
  | some v => v
  | none => fb t

/-- Model of `extract_json_from_text` (src/main.py lines 53-67).
`Json.null` plays the role of Python `None` (note `json.loads "null"`
also yields `None`, indistinguishable from failure, exactly as in the
source). -/
def extract_json_from_text (s : List Char) : Json :=
  extract_core substring_fallback s

-- ## Degraded result and decode step of analyze_with_langchain (lines 103-113)

/-- The degraded report built at src/main.py lines 106-112 when the model
output had no parseable JSON. -/
def degraded_result (model_output : List Char) : Json :=
  Json.obj
    [("summary".data, Json.obj
        [("compliant".data, Json.bool false),
         ("message".data, Json.str "Model did not return parseable JSON".data)]),
     ("violations".data, Json.arr []),
     ("suggestions".data, Json.arr []),
     ("metrics".data, Json.obj []),
     ("raw_output".data, Json.str model_output)]

/-- The `parsed = extract_json_from_text(...); if parsed is None: ...` step
of `analyze_with_langchain` (lines 103-113). -/
def analyze_decode (model_output : List Char) : Json :=
  match extract_json_from_text model_output with
  | Json.null => degraded_result model_output
  | v => v

-- ## Prompt construction (lines 74-91)

/-- Truncation policy of the analysis flow (src/main.py line 75). -/
def text_snippet (text : List Char) : List Char :=
  if text.length < 6000 then text else text.take 6000 ++ "\n\n[TRUNCATED]".data

/-- The formatted prompt template up to and including "GUIDELINES:\n"
(PromptTemplate renders the doubled braces of the source template as
single braces, written here as hex escapes). -/
def prompt_head : List Char :=
  ("You are an expert editor and compliance checker for English writing.\n" ++
   "Analyze the DOCUMENT (below) against the GUIDELINES (below) and RETURN A VALID JSON OBJECT ONLY (no explanation) with these keys:\n" ++
   "- summary: \x7b \"compliant\": bool, \"message\": str \x7d\n" ++
   "- violations: [ \x7b \"rule\": str, \"message\": str, \"examples\": [str] \x7d ... ]\n" ++
   "- suggestions: [str]\n" ++
   "- metrics: \x7b \"word_count\": int, \"sentence_count\": int, \"readability_note\": str \x7d\n" ++
   "\nGUIDELINES:\n").data

def prompt_mid : List Char := "\n\nDOCUMENT:\n".data

def prompt_tail : List Char := "\n".data

def build_prompt (guidelines text : List Char) : List Char :=
  prompt_head ++ guidelines ++ prompt_mid ++ text ++ prompt_tail

/-- The prompt actually sent for a given raw `text`: the template with
`guidelines` and the truncated `text_snippet` substituted. -/
def analyze_prompt (guidelines text : List Char) : List Char :=
  build_prompt guidelines (text_snippet text)

-- ## analyze_with_langchain (lines 70-113)

-- Python truthiness of the credential: None and "" are both falsy.
def api_key_ok : Option (List Char) → Bool
  | none => false
  | some k => !k.isEmpty

/-- Model of `analyze_with_langchain`.  The LLM transport (`chain.predict`)
is the parameter `llm`, mapping the built prompt to either a raised
transport error or the raw model output; `api_key` models the
`OPENAI_API_KEY` environment value.  Raised exceptions are `Except.error`
carrying the message. -/
def analyze_with_langchain (api_key : Option (List Char))
    (llm : List Char → Except (List Char) (List Char))
    (text guidelines : List Char) : Except (List Char) Json :=
  if !api_key_ok api_key then
    Except.error "OPENAI_API_KEY is not set in .env".data
  else
    match llm (analyze_prompt guidelines text) with
    | Except.error e => Except.error e
    | Except.ok model_output => Except.ok (analyze_decode model_output)

-- ## Docx extraction (lines 48-50)

/-- Model of `extract_text_from_docx`: the document is its paragraph texts
in order; `"\n".join([p.text for p in doc.paragraphs if p.text]).strip()`. -/
def extract_text_from_docx (paragraphs : List (List Char)) : List Char :=
  pyStrip (List.intercalate ['\n'] (paragraphs.filter (fun p => !p.isEmpty)))

/-- Modelled from the spec wording of 4.1: concatenate each non-empty
paragraph's text, separated by newline, preserving document order. -/
def joinWithNewline : List (List Char) → List Char
  | [] => []
  | [p] => p
  | p :: q :: ps => p ++ '\n' :: joinWithNewline (q :: ps)

-- ## The /analyze/ endpoint (analyze_upload, lines 145-190)

def ALLOWED_TYPES : List (List Char × List Char) :=
  [("application/pdf".data, ".pdf".data),
   ("application/vnd.openxmlformats-officedocument.wordprocessingml.document".data, ".docx".data),
   ("application/msword".data, ".doc".data)]

-- Python dict lookup over an assoc list with distinct keys.
def assocLookup {α : Type} (kvs : List (List Char × α)) (k : List Char) : Option α :=
  match kvs with
  | [] => none
  | (k0, v) :: rest => if k0 = k then some v else assocLookup rest k

/-- Outcome of one request: an `HTTPException` with its status code and
detail string, or the success `JSONResponse` payload. -/
inductive PipelineResult where
  | error : Nat → List Char → PipelineResult
  | ok : List Char → List Char → Json → PipelineResult

/-- Model of the `/analyze/` handler `analyze_upload`.  The upload
directory is the explicit list `store` of stored file names; external
effects are parameters: `uuid_name` the generated name stem, `save` the
outcome of the disk write, `extract` the outcome of running the format
extractor on the stored file, `api_key` and `llm` as above.  Each branch
returns the response paired with the directory contents afterwards; no
branch ever removes a stored file, as in the source, which has no unlink. -/
def analyze_upload (store : List (List Char)) (content_type : List Char)
    (uuid_name : List Char) (save : Except (List Char) Unit)
    (extract : Except (List Char) (List Char))
    (api_key : Option (List Char))
    (llm : List Char → Except (List Char) (List Char))
    (guidelines : List Char) : PipelineResult × List (List Char) :=
  match assocLookup ALLOWED_TYPES content_type with
  | none => (PipelineResult.error 400 ("Unsupported file type: ".data ++ content_type), store)
  | some ext =>
    let fname := uuid_name ++ ext
    match save with
    | Except.error e => (PipelineResult.error 500 ("File save error: ".data ++ e), store)
    | Except.ok _ =>
      let store2 := store ++ [fname]
      match extract with
      | Except.error e => (PipelineResult.error 500 ("Extraction failed: ".data ++ e), store2)
      | Except.ok text =>
        if (pyStrip text).isEmpty then
          (PipelineResult.error 422 "No extractable text found in the document.".data, store2)
        else
          match analyze_with_langchain api_key llm text guidelines with
          | Except.error e =>
            (PipelineResult.error 500 ("LLM analysis failed: ".data ++ e), store2)
          | Except.ok report => (PipelineResult.ok fname content_type report, store2)

-- ## Analysis schema (the JSON shape the prompt asks for; spec section 3)

def jget (j : Json) (k : List Char) : Option Json :=
  match j with
  | Json.obj kvs => assocLookup kvs k
  | _ => none

def oget (o : Option Json) (k : List Char) : Option Json :=
  match o with
  | some j => jget j k
  | none => none

def isBoolVal : Option Json → Bool
  | some (Json.bool _) => true
  | _ => false

def isStrVal : Option Json → Bool
  | some (Json.str _) => true
  | _ => false

def isStrJ : Json → Bool
  | Json.str _ => true
  | _ => false

-- An integer-shaped JSON number: optional minus, then digits only.
def isIntVal : Option Json → Bool
  | some (Json.num lx) =>
    match lx with
    | [] => false
    | c :: rest =>
      if c = '-' then !rest.isEmpty && rest.all Char.isDigit
      else c.isDigit && rest.all Char.isDigit
  | _ => false

def isViolation (j : Json) : Bool :=
  isStrVal (jget j "rule".data) && isStrVal (jget j "message".data) &&
    (match jget j "examples".data with
     | some (Json.arr xs) => xs.all isStrJ
     | _ => false)

/-- The ComplianceReport shape the prompt template enumerates:
summary with compliant/message, violations list, suggestions list,
metrics with the three counters. -/
def matchesSchema (j : Json) : Bool :=
  isBoolVal (oget (jget j "summary".data) "compliant".data) &&
  isStrVal (oget (jget j "summary".data) "message".data) &&
  (match jget j "violations".data with
   | some (Json.arr xs) => xs.all isViolation
   | _ => false) &&
  (match jget j "suggestions".data with
   | some (Json.arr xs) => xs.all isStrJ
   | _ => false) &&
  isIntVal (oget (jget j "metrics".data) "word_count".data) &&
  isIntVal (oget (jget j "metrics".data) "sentence_count".data) &&
  isStrVal (oget (jget j "metrics".data) "readability_note".data)

-- ## Helper lemma for C8

theorem intercalate_newline_eq_joinWithNewline (xs : List (List Char)) :
    List.intercalate ['\n'] xs = joinWithNewline xs := by
  induction xs with
  | nil => rfl
  | cons p ps ih =>
    cases ps with
    | nil => simp [List.intercalate, joinWithNewline]
    | cons q qs =>
      show List.intercalate ['\n'] (p :: q :: qs) = p ++ '\n' :: joinWithNewline (q :: qs)
      rw [← ih]
      simp [List.intercalate, List.intersperse_cons_cons]

-- ## Claim theorems

/-- C1: for every raw model output whose trimmed form parses as valid JSON
matching the analysis schema, `extract_json_from_text` returns that parsed
value unchanged; and since `extract_core` gives this answer for every
fallback function, the substring fallback is never consulted. -/
theorem spec_c1_whole_json_returned_unchanged (s : List Char) (v : Json)
    (hparse : json_loads (pyStrip s) = some v) (_hschema : matchesSchema v = true) :
    extract_json_from_text s = v ∧ ∀ fb : List Char → Json, extract_core fb s = v := by
  refine ⟨?_, fun fb => ?_⟩
  · simp [extract_json_from_text, extract_core, hparse]
  · simp [extract_core, hparse]

/-- C1 witness input: a schema-complete JSON response. -/
def c1_raw : List Char :=
  ("\x7b\"summary\": \x7b\"compliant\": true, \"message\": \"ok\"\x7d, " ++
   "\"violations\": [], \"suggestions\": [], " ++
   "\"metrics\": \x7b\"word_count\": 3, \"sentence_count\": 1, \"readability_note\": \"fine\"\x7d\x7d").data

/-- C1 witness value: the object `c1_raw` parses to. -/
def c1_val : Json :=
  Json.obj
    [("summary".data, Json.obj
        [("compliant".data, Json.bool true), ("message".data, Json.str "ok".data)]),
     ("violations".data, Json.arr []),
     ("suggestions".data, Json.arr []),
     ("metrics".data, Json.obj
        [("word_count".data, Json.num "3".data),
         ("sentence_count".data, Json.num "1".data),
         ("readability_note".data, Json.str "fine".data)])]

/-- C1 witness: the schema-complete response `c1_raw` decodes to itself. -/
theorem spec_c1_witness : extract_json_from_text c1_raw = c1_val :=
  (spec_c1_whole_json_returned_unchanged c1_raw c1_val rfl rfl).1

/-- C2: when the whole-string parse of the trimmed output fails but the
first `x7b` strictly precedes the last `x7d` and the inclusive slice
between them is valid JSON, the decoder returns the object parsed from
that slice; the prose before and after the braces is discarded.
(Stripping touches only leading and trailing whitespace, so the braces
and the slice are the same in the raw output.) -/
theorem spec_c2_substring_fallback (s : List Char) (i j : Nat) (v : Json)
    (h0 : json_loads (pyStrip s) = none)
    (h1 : List.findIdx? (fun c => c = lbraceChar) (pyStrip s) = some i)
    (h2 : rfindIdx (fun c => c = rbraceChar) (pyStrip s) = some j)
    (h3 : i < j)
    (h4 : json_loads (((pyStrip s).drop i).take (j + 1 - i)) = some v) :
    extract_json_from_text s = v := by
  simp [extract_json_from_text, extract_core, h0, substring_fallback, h1, h2, h3, h4]

/-- C2 witness raw output: prose around a JSON object. -/
def c2_raw : List Char := "Sure! Here you go: \x7b\"a\": 1\x7d Thanks!".data

/-- C2 witness: the inner object is extracted from the prose-wrapped output. -/
theorem spec_c2_witness :
    extract_json_from_text c2_raw = Json.obj [("a".data, Json.num "1".data)] :=
  spec_c2_substring_fallback c2_raw 19 26 (Json.obj [("a".data, Json.num "1".data)])
    rfl rfl rfl (by decide) rfl

/-- C3 counterexample: on the raw output "42" the whole-string parse
succeeds with a non-object value, yet the analysis returns that value
itself as the report instead of the degraded result the claim requires. -/
theorem spec_c3_counterexample :
    json_loads (pyStrip "42".data) = some (Json.num "42".data) ∧
    analyze_decode "42".data = Json.num "42".data ∧
    analyze_decode "42".data ≠ degraded_result "42".data := by
  refine ⟨rfl, rfl, ?_⟩
  intro h
  have h2 : Json.num "42".data = degraded_result "42".data := h
  simp [degraded_result] at h2

/-- C3 (amended): for every raw model output for which both the
whole-string parse and the substring fallback fail (the extractor yields
Python None), the analysis returns — as a success, never an exception —
the degraded report: summary.compliant false, the fixed message, empty
violations, suggestions and metrics, and the raw output attached
verbatim.  (A successful parse of a non-object top-level value is instead
returned as the report unchanged.) -/
theorem spec_c3_degraded_result (mo text g k : List Char)
    (llm : List Char → Except (List Char) (List Char))
    (h0 : json_loads (pyStrip mo) = none)
    (h1 : substring_fallback (pyStrip mo) = Json.null)
    (hk : k.isEmpty = false)
    (hllm : llm (analyze_prompt g text) = Except.ok mo) :
    analyze_with_langchain (some k) llm text g =
      Except.ok (Json.obj
        [("summary".data, Json.obj
            [("compliant".data, Json.bool false),
             ("message".data, Json.str "Model did not return parseable JSON".data)]),
         ("violations".data, Json.arr []),
         ("suggestions".data, Json.arr []),
         ("metrics".data, Json.obj []),
         ("raw_output".data, Json.str mo)]) := by
  simp [analyze_with_langchain, api_key_ok, hk, hllm, analyze_decode,
        extract_json_from_text, extract_core, h0, h1, degraded_result]

/-- C3 witness: plain prose with no braces yields the degraded report as a
successful return. -/
theorem spec_c3_witness :
    analyze_with_langchain (some "sk-test".data)
        (fun _ => Except.ok "no json here".data) "doc".data "rules".data =
      Except.ok (Json.obj
        [("summary".data, Json.obj
            [("compliant".data, Json.bool false),
             ("message".data, Json.str "Model did not return parseable JSON".data)]),
         ("violations".data, Json.arr []),
         ("suggestions".data, Json.arr []),
         ("metrics".data, Json.obj []),
         ("raw_output".data, Json.str "no json here".data)]) :=
  spec_c3_degraded_result "no json here".data "doc".data "rules".data "sk-test".data
    (fun _ => Except.ok "no json here".data) rfl rfl rfl rfl

/-- C4 counterexample: a text of exactly 6000 characters does not exceed
6000, yet the code's `len(text) < 6000` guard sends it through the
truncating branch and appends the marker, so it is not embedded
unchanged. -/
theorem spec_c4_counterexample :
    (List.replicate 6000 (Char.ofNat 97)).length ≤ 6000 ∧
    text_snippet (List.replicate 6000 (Char.ofNat 97)) ≠
      List.replicate 6000 (Char.ofNat 97) := by
  have hlen : (List.replicate 6000 (Char.ofNat 97)).length = 6000 := by
    rw [List.length_replicate]
  have hsnip : text_snippet (List.replicate 6000 (Char.ofNat 97)) =
      (List.replicate 6000 (Char.ofNat 97)).take 6000 ++ "\n\n[TRUNCATED]".data := by
    unfold text_snippet
    rw [hlen]
    exact if_neg (by omega)
  refine ⟨le_of_eq hlen, ?_⟩
  intro h
  rw [hsnip] at h
  have hl := congrArg List.length h
  rw [List.length_append, List.length_take, hlen] at hl
  have hm : ("\n\n[TRUNCATED]".data).length = 13 := rfl
  rw [hm] at hl
  omega

/-- C4 (amended): text of 6000 or more characters is cut to exactly its
first 6000 characters with the literal truncation marker appended before
being embedded in the prompt; text of fewer than 6000 characters is
embedded unchanged with no marker. -/
theorem spec_c4_truncation (g t : List Char) :
    (t.length < 6000 →
      analyze_prompt g t = prompt_head ++ g ++ prompt_mid ++ t ++ prompt_tail) ∧
    (6000 ≤ t.length →
      analyze_prompt g t =
        prompt_head ++ g ++ prompt_mid ++
          (t.take 6000 ++ "\n\n[TRUNCATED]".data) ++ prompt_tail) := by
  constructor
  · intro h
    rw [analyze_prompt, build_prompt]
    unfold text_snippet
    rw [if_pos h]
  · intro h
    rw [analyze_prompt, build_prompt]
    unfold text_snippet
    rw [if_neg (Nat.not_lt.mpr h)]

/-- C4 witness: a one-character text is embedded unchanged; a 6000-character
text is embedded as its first 6000 characters plus the marker. -/
theorem spec_c4_witness :
    analyze_prompt [] [Char.ofNat 97] =
      prompt_head ++ [] ++ prompt_mid ++ [Char.ofNat 97] ++ prompt_tail ∧
    analyze_prompt [] (List.replicate 6000 (Char.ofNat 97)) =
      prompt_head ++ [] ++ prompt_mid ++
        ((List.replicate 6000 (Char.ofNat 97)).take 6000 ++ "\n\n[TRUNCATED]".data) ++
        prompt_tail :=
  ⟨(spec_c4_truncation [] [Char.ofNat 97]).1 (by decide),
   (spec_c4_truncation [] (List.replicate 6000 (Char.ofNat 97))).2
     (le_of_eq (by rw [List.length_replicate]))⟩

/-- C5: an upload whose declared media type is outside ALLOWED_TYPES is
rejected with HTTP 400, and the upload directory is returned unchanged —
no storage write happens, whatever the other effects would have done. -/
theorem spec_c5_unsupported_type (store : List (List Char))
    (ct uuid_name g : List Char) (save : Except (List Char) Unit)
    (extract : Except (List Char) (List Char)) (api_key : Option (List Char))
    (llm : List Char → Except (List Char) (List Char))
    (h : assocLookup ALLOWED_TYPES ct = none) :
    analyze_upload store ct uuid_name save extract api_key llm g =
      (PipelineResult.error 400 ("Unsupported file type: ".data ++ ct), store) := by
  simp [analyze_upload, h]

/-- C5 witness: a text/plain upload is rejected and the store stays empty. -/
theorem spec_c5_witness :
    analyze_upload [] "text/plain".data "u".data (Except.ok ())
        (Except.ok "x".data) none (fun _ => Except.ok []) [] =
      (PipelineResult.error 400 ("Unsupported file type: ".data ++ "text/plain".data), []) :=
  spec_c5_unsupported_type [] "text/plain".data "u".data [] (Except.ok ())
    (Except.ok "x".data) none (fun _ => Except.ok []) rfl

/-- C6: a stored upload whose extracted text is empty after trimming fails
with HTTP 422 "No extractable text found in the document." — leaving the
stored file — and the conclusion holds for every api_key and llm, so no
model call is ever issued for the request. -/
theorem spec_c6_no_extractable_text (store : List (List Char))
    (ct ext uuid_name text g : List Char) (api_key : Option (List Char))
    (llm : List Char → Except (List Char) (List Char))
    (h1 : assocLookup ALLOWED_TYPES ct = some ext)
    (h2 : pyStrip text = []) :
    analyze_upload store ct uuid_name (Except.ok ()) (Except.ok text) api_key llm g =
      (PipelineResult.error 422 "No extractable text found in the document.".data,
       store ++ [uuid_name ++ ext]) := by
  simp [analyze_upload, h1, h2]

/-- C6 witness: a stored PDF extracting to whitespace fails with 422. -/
theorem spec_c6_witness :
    analyze_upload [] "application/pdf".data "u".data (Except.ok ())
        (Except.ok "  \n ".data) none (fun _ => Except.ok []) [] =
      (PipelineResult.error 422 "No extractable text found in the document.".data,
       [] ++ ["u".data ++ ".pdf".data]) :=
  spec_c6_no_extractable_text [] "application/pdf".data ".pdf".data "u".data
    "  \n ".data [] none (fun _ => Except.ok []) rfl rfl

/-- C7: with the oracle credential absent from configuration, every
analysis invocation returns the fatal configuration error; the conclusion
holds for every llm transport, so it is raised before any model call is
attempted. -/
theorem spec_c7_missing_credential
    (llm : List Char → Except (List Char) (List Char)) (text g : List Char) :
    analyze_with_langchain none llm text g =
      Except.error "OPENAI_API_KEY is not set in .env".data := by
  simp [analyze_with_langchain, api_key_ok]

/-- C8: docx extraction equals the spec's description — concatenate each
non-empty paragraph's text in document order, separated by newline, and
trim the final concatenation. -/
theorem spec_c8_docx_extraction (paragraphs : List (List Char)) :
    extract_text_from_docx paragraphs =
      pyStrip (joinWithNewline (paragraphs.filter (fun p => !p.isEmpty))) := by
  rw [extract_text_from_docx, intercalate_newline_eq_joinWithNewline]

/-- C9: a raw model output parsing as a JSON object — with whatever keys,
including none of the required ones — is returned verbatim as the report;
no schema validation happens. -/
theorem spec_c9_no_schema_validation (s : List Char) (kvs : List (List Char × Json))
    (h : json_loads (pyStrip s) = some (Json.obj kvs)) :
    analyze_decode s = Json.obj kvs := by
  simp [analyze_decode, extract_json_from_text, extract_core, h]

/-- C9 witness: the empty object, missing every required key, is returned
as the report unchanged. -/
theorem spec_c9_witness : analyze_decode "\x7b\x7d".data = Json.obj [] :=
  spec_c9_no_schema_validation "\x7b\x7d".data [] rfl

/-- C10: once the media type is accepted and the bytes are stored, the
stored file name stays in the upload directory whatever happens
downstream — extraction error, empty text, analysis error, or success:
no error path removes the file, so a failed request leaves exactly one
new file. -/
theorem spec_c10_file_persists (store : List (List Char))
    (ct ext uuid_name g : List Char)
    (extract : Except (List Char) (List Char)) (api_key : Option (List Char))
    (llm : List Char → Except (List Char) (List Char))
    (h : assocLookup ALLOWED_TYPES ct = some ext) :
    (analyze_upload store ct uuid_name (Except.ok ()) extract api_key llm g).2 =
      store ++ [uuid_name ++ ext] := by
  cases extract with
  | error e => simp [analyze_upload, h]
  | ok text =>
    by_cases htext : (pyStrip text).isEmpty
    · simp [analyze_upload, h, htext]
    · cases hA : analyze_with_langchain api_key llm text g with
      | error e => simp [analyze_upload, h, htext, hA]
      | ok r => simp [analyze_upload, h, htext, hA]

/-- C10 witness: a request failing at extraction still leaves its stored
file in the directory. -/
theorem spec_c10_witness :
    (analyze_upload [] "application/pdf".data "u".data (Except.ok ())
        (Except.error "corrupt file".data) none (fun _ => Except.ok []) []).2 =
      [] ++ ["u".data ++ ".pdf".data] :=
  spec_c10_file_persists [] "application/pdf".data ".pdf".data "u".data []
    (Except.error "corrupt file".data) none (fun _ => Except.ok []) rfl
